import Mathlib

/-!
Verification development for the gateway-proxy per-shard dispatch engine.

The embedding covers `src/dispatch.rs` (the `events` session loop and its
telemetry debounce) and `src/cache.rs` (the no-op `Guilds` cache stub).
Helper types that live elsewhere in the repository (the envelope
deserializer, the `Ready` model, the shared ready state) are modelled from
the specification, as marked on each definition.
-/

set_option autoImplicit false

namespace GatewayProxy

/-- A JSON value.  Frames on the wire are JSON texts; the loop never relies
on object-field ordering, only on field lookup, so objects are association
lists of fields. -/
inductive Json where
  | null : Json
  | bool : Bool → Json
  | num : Int → Json
  | str : String → Json
  | arr : List Json → Json
  | obj : List (String × Json) → Json

/-- `model::JsonObject`: a JSON object, as a field association list. -/
abbrev JsonObject := List (String × Json)

/-- First-occurrence field lookup in a JSON object (serde map `get`). -/
def lookupField : JsonObject → String → Option Json
  | [], _ => none
  | (k, v) :: rest, key => if k = key then some v else lookupField rest key

/-- Field write in a JSON object: replace the first occurrence of the key,
or append the binding when the key is absent (serde map `insert` /
in-place mutation through `get_mut`). -/
def setField : JsonObject → String → Json → JsonObject
  | [], key, v => [(key, v)]
  | (k, w) :: rest, key, v =>
    if k = key then (key, v) :: rest else (k, w) :: setField rest key v

/-- A raw text frame received from the transport.  `invalid` stands for a
text that is not a JSON object at all (structural decode failure); `json`
carries the parsed value.  The raw text of a frame is identified with the
frame value itself: the loop relays frames verbatim. -/
inductive Frame where
  | invalid : Nat → Frame
  | json : Json → Frame

/-- `deserializer::GatewayEvent` after `into_parts`: opcode, optional
sequence number, optional event-type name. -/
structure GatewayEvent where
  op : Int
  s : Option Int
  t : Option String

/-- Modelled from the spec: the Envelope Decoder
(`deserializer::GatewayEvent::from_json`, not under `src/`).  Per spec
section 4.1 and section 6 it extracts `(opcode, sequence, event_type)`
from a JSON object with integer `op`, optional integer `s`, optional
string `t`; on structural parse failure it returns a distinguished
failure.  An absent or null `t` yields no event type. -/
def GatewayEvent.from_json (f : Frame) : Option GatewayEvent :=
  match f with
  | Frame.json (Json.obj fields) =>
    match lookupField fields "op" with
    | some (Json.num op) =>
      let s : Option Int :=
        match lookupField fields "s" with
        | some (Json.num n) => some n
        | _ => none
      let t : Option String :=
        match lookupField fields "t" with
        | some (Json.str name) => some name
        | _ => none
      some { op := op, s := s, t := t }
    | _ => none
  | _ => none

/-- The event-type name the envelope decoder extracts from a frame, if any. -/
def eventName (f : Frame) : Option String :=
  match GatewayEvent.from_json f with
  | some ev => ev.t
  | none => none

/-- Modelled from the spec: full deserialization of a frame into
`model::Ready` (not under `src/`), a struct holding the `d` body as a JSON
object.  It succeeds exactly when the frame is a JSON object whose `d`
field is itself a JSON object, returning that body; `dispatch.rs` unwraps
this result. -/
def readyFromJson (f : Frame) : Option JsonObject :=
  match f with
  | Frame.json (Json.obj fields) =>
    match lookupField fields "d" with
    | some (Json.obj d) => some d
    | _ => none
  | _ => none

/-- The session-lifecycle events the loop distinguishes among the results
of `twilight_gateway::parse`. -/
inductive ParsedEvent where
  | dispatch : String → ParsedEvent
  | invalidateSession : Bool → ParsedEvent
  | other : ParsedEvent

/-- Modelled from the spec: `twilight_gateway::parse` (external transport
collaborator, spec section 6) as observed by the loop.  A dispatch frame
(opcode 0 with a string event type) parses to a dispatch event; opcode 9
with a boolean body parses to the session-invalidated signal carrying the
resumable flag; other opcodes parse to events the loop ignores; anything
else is a parse failure, which the loop skips. -/
def parse (f : Frame) : Option ParsedEvent :=
  match f with
  | Frame.json (Json.obj fields) =>
    match lookupField fields "op" with
    | some (Json.num op) =>
      if op = 0 then
        match lookupField fields "t" with
        | some (Json.str name) => some (ParsedEvent.dispatch name)
        | _ => none
      else if op = 9 then
        match lookupField fields "d" with
        | some (Json.bool b) => some (ParsedEvent.invalidateSession b)
        | _ => none
      else some ParsedEvent.other
    | _ => none
  | _ => none

/-- The mutable state of one shard session loop: the local `is_ready`
flag, and the shared published ready snapshot (`shard_state.ready`,
written through `set_ready` and `set_not_ready`, modelled from the spec
as the externally readable optional JSON object it stores). -/
structure LoopState where
  is_ready : Bool
  ready : Option JsonObject

/-- Everything one loop iteration does with a text frame: the successor
state, the messages published on the broadcast bus (raw frame paired with
its envelope sequence number), the per-event-type counter increments, and
whether the frame was offered to the entity cache. -/
structure StepOut where
  state : LoopState
  published : List (Frame × Option Int)
  counted : List String
  cached : Bool

/-- `dispatch.rs` lines 97-102: clear the `guilds` field of the ready body
when it is present and is an array; otherwise leave the body unchanged. -/
def clearGuilds (d : JsonObject) : JsonObject :=
  match lookupField d "guilds" with
  | some (Json.arr _) => setField d "guilds" (Json.arr [])
  | _ => d

/-- `dispatch.rs` lines 85-124, the `if let Some(EventTypeInfo(..))` block:
given the decoded envelope, handle READY (rebuild and publish the
synthetic snapshot, panicking - `none` - when the body fails full
deserialization), RESUMED, and the relay decision for ordinary dispatch
frames.  Returns the updated state, the published messages and the counter
increments. -/
def nameStage (url : String) (st : LoopState) (f : Frame) (ev : GatewayEvent) :
    Option (LoopState × List (Frame × Option Int) × List String) :=
  match ev.t with
  | none => some (st, [], [])
  | some name =>
    if name = "READY" then
      match readyFromJson f with
      | none => none
      | some d =>
        some ({ is_ready := true,
                ready := some (setField (clearGuilds d) "resume_gateway_url" (Json.str url)) },
              [], [name])
    else if name = "RESUMED" then
      some ({ st with is_ready := true }, [], [name])
    else if ev.op = 0 ∧ st.is_ready then
      some (st, [(f, ev.s)], [name])
    else
      some (st, [], [name])

/-- `dispatch.rs` lines 126-143, the `if let Ok(Some(event)) = parse(..)`
block: offer dispatch events to the entity cache (a no-op in the shipped
cache), and on a session-invalidation signal clear the published snapshot
when not resumable and suspend relaying in both cases. -/
def parseStage (st : LoopState) (f : Frame) : LoopState × Bool :=
  match parse f with
  | some (ParsedEvent.dispatch _) => (st, true)
  | some (ParsedEvent.invalidateSession b) =>
    ({ is_ready := false, ready := if b then st.ready else none }, false)
  | _ => (st, false)

/-- Processing of one text frame by the session loop (`dispatch.rs` lines
78-143).  `none` means the iteration panics (the `unwrap` on the READY
body); otherwise the frame is decoded, the event-type block and then the
parse block run in order. -/
def processFrame (url : String) (st : LoopState) (f : Frame) : Option StepOut :=
  match GatewayEvent.from_json f with
  | none => some { state := st, published := [], counted := [], cached := false }
  | some ev =>
    match nameStage url st f ev with
    | none => none
    | some (st1, pub, cnt) =>
      some { state := (parseStage st1 f).1, published := pub, counted := cnt,
             cached := (parseStage st1 f).2 }

/-- One item produced by the transport stream: a text frame, a close frame
(annotated with the value of the process-wide shutdown flag observed at
that moment), or a transport read error. -/
inductive Message where
  | text : Frame → Message
  | close : Bool → Message
  | err : Message

/-- How a run of the session loop ends. -/
inductive Outcome where
  | streamEnd : Outcome
  | shutdownClose : Outcome
  | panicked : Outcome
deriving DecidableEq

/-- The session loop `events` over a finite transport stream: reads
messages in order, returns on stream end or on a close frame observed
during shutdown, skips close frames outside shutdown and read errors, and
processes text frames, accumulating the messages published on the
broadcast bus. -/
def runLoop (url : String) : LoopState → List Message → List (Frame × Option Int) × Outcome
  | _, [] => ([], Outcome.streamEnd)
  | _, Message.close true :: _ => ([], Outcome.shutdownClose)
  | st, Message.close false :: rest => runLoop url st rest
  | st, Message.err :: rest => runLoop url st rest
  | st, Message.text f :: rest =>
    match processFrame url st f with
    | none => ([], Outcome.panicked)
    | some out =>
      let r := runLoop url out.state rest
      (out.published ++ r.1, r.2)

/-- Spec-side relay rule, following the words of the claim: a frame is
relayed when its envelope decodes with opcode 0 and an event type while
the readiness state is Ready. -/
def relaySpecLiteral (st : LoopState) (f : Frame) : List (Frame × Option Int) :=
  match GatewayEvent.from_json f with
  | some ev =>
    match ev.t with
    | some _ => if ev.op = 0 ∧ st.is_ready then [(f, ev.s)] else []
    | none => []
  | none => []

/-- Spec-side relay rule as amended: a frame is relayed when its envelope
decodes with opcode 0 and an event type other than READY and RESUMED
while the readiness state is Ready. -/
def relaySpecAmended (st : LoopState) (f : Frame) : List (Frame × Option Int) :=
  match GatewayEvent.from_json f with
  | some ev =>
    match ev.t with
    | some name =>
      if name ≠ "READY" ∧ name ≠ "RESUMED" ∧ ev.op = 0 ∧ st.is_ready then [(f, ev.s)]
      else []
    | none => []
  | none => []

/-- Spec-side run: the messages a given relay rule predicts over a
transport stream, threading the readiness state of the loop itself and
stopping where the loop stops (close during shutdown, panic, stream
end). -/
def runRelaySpec (relay : LoopState → Frame → List (Frame × Option Int)) (url : String) :
    LoopState → List Message → List (Frame × Option Int)
  | _, [] => []
  | _, Message.close true :: _ => []
  | st, Message.close false :: rest => runRelaySpec relay url st rest
  | st, Message.err :: rest => runRelaySpec relay url st rest
  | st, Message.text f :: rest =>
    match processFrame url st f with
    | none => []
    | some out => relay st f ++ runRelaySpec relay url out.state rest

/-- `dispatch.rs` line 27: the telemetry debounce interval, in
milliseconds. -/
def UPDATE_INTERVAL : Nat := 500

/-- The telemetry debounce of the session loop (`dispatch.rs` lines
46-55), projected onto time: given the instant held in
`last_metrics_update` and the monotonic instants (in milliseconds) at
which successive loop iterations begin, the instants at which
`update_shard_statistics` is called.  A sample is emitted when strictly
more than `UPDATE_INTERVAL` has elapsed since the last update, and the
last-update instant is advanced exactly then. -/
def sampleTimes (last : Nat) : List Nat → List Nat
  | [] => []
  | t :: rest =>
    if UPDATE_INTERVAL < t - last then t :: sampleTimes t rest
    else sampleTimes last rest

/-- `twilight_model::gateway::OpCode`, as used by the cache stub. -/
inductive OpCode where
  | Dispatch : OpCode
  | Heartbeat : OpCode
  | Identify : OpCode
  | PresenceUpdate : OpCode
  | VoiceStateUpdate : OpCode
  | Resume : OpCode
  | Reconnect : OpCode
  | RequestGuildMembers : OpCode
  | InvalidSession : OpCode
  | Hello : OpCode
  | HeartbeatAck : OpCode
deriving DecidableEq

/-- One past the largest `usize` value on the 64-bit targets the relay
ships on: the modulus of the fixed-width sequence counter. -/
def USIZE_BOUND : Nat := 2 ^ 64

/-- `cache::Payload`: a fully formed dispatch-shaped payload.  Its `s`
field is a `usize` in the source; it is represented as a `Nat` that the
operations keep reduced modulo `USIZE_BOUND`. -/
structure Payload (T : Type) where
  d : T
  op : OpCode
  t : String
  s : Nat

/-- `cache::Guilds::get_ready_payload`: bump the `usize` sequence counter
by one - wrapping modulo `USIZE_BOUND`, the release-profile semantics of
the source's unchecked `*sequence += 1` - set the `guilds` field of the
body to an empty array, and build the `READY` dispatch payload carrying
the new counter value.  The Rust method mutates the counter through a
reference; here it returns the payload together with the new counter
value. -/
def Guilds.get_ready_payload (ready : JsonObject) (sequence : Nat) :
    Payload JsonObject × Nat :=
  let s1 := (sequence + 1) % USIZE_BOUND
  ({ d := setField ready "guilds" (Json.arr []), op := OpCode.Dispatch,
     t := "READY", s := s1 }, s1)

/-- `cache::Guilds::get_guild_payloads`: the empty iterator, leaving the
sequence counter untouched. -/
def Guilds.get_guild_payloads (sequence : Nat) : List String × Nat :=
  ([], sequence)

/-- The initial loop state: `is_ready = false`, no published snapshot. -/
def initialState : LoopState := { is_ready := false, ready := none }

/-- The `d` body of a sample upstream READY frame: two guilds and an
upstream resume URL. -/
def upstreamReadyBody : JsonObject :=
  [("guilds", Json.arr [Json.obj [("id", Json.num 1)], Json.obj [("id", Json.num 2)]]),
   ("resume_gateway_url", Json.str "wss://upstream")]

/-- A well-formed upstream READY frame. -/
def readyFrame : Frame :=
  Frame.json (Json.obj [("op", Json.num 0), ("s", Json.num 1), ("t", Json.str "READY"),
    ("d", Json.obj upstreamReadyBody)])

/-- A READY frame whose envelope decodes but whose body fails full
deserialization into the `Ready` model (`d` is not a JSON object). -/
def badReadyFrame : Frame :=
  Frame.json (Json.obj [("op", Json.num 0), ("s", Json.num 1), ("t", Json.str "READY"),
    ("d", Json.null)])

/-- An opcode-0 RESUMED frame. -/
def resumedFrame : Frame :=
  Frame.json (Json.obj [("op", Json.num 0), ("s", Json.num 2), ("t", Json.str "RESUMED")])

/-- An ordinary dispatch frame. -/
def messageCreateFrame : Frame :=
  Frame.json (Json.obj [("op", Json.num 0), ("s", Json.num 2),
    ("t", Json.str "MESSAGE_CREATE"), ("d", Json.obj [("content", Json.str "hi")])])

/-- A session-invalidation frame with the given resumable flag. -/
def invalidateFrame (b : Bool) : Frame :=
  Frame.json (Json.obj [("op", Json.num 9), ("d", Json.bool b)])

/-- An opcode-0 frame whose `t` field is null. -/
def noTypeFrame : Frame :=
  Frame.json (Json.obj [("op", Json.num 0), ("s", Json.num 3), ("t", Json.null),
    ("d", Json.obj [])])

/-- A short transport stream: a READY frame followed by an opcode-0
RESUMED frame. -/
def sampleTrace : List Message :=
  [Message.text readyFrame, Message.text resumedFrame]

theorem lookupField_setField_self (o : JsonObject) (k : String) (v : Json) :
    lookupField (setField o k v) k = some v := by
  induction o with
  | nil => simp [setField, lookupField]
  | cons p rest ih =>
    obtain ⟨k1, v1⟩ := p
    by_cases h : k1 = k
    · simp [setField, h, lookupField]
    · simp [setField, h, lookupField, ih]

theorem lookupField_setField_ne (o : JsonObject) (k : String) (v : Json) (k2 : String)
    (hne : k2 ≠ k) : lookupField (setField o k v) k2 = lookupField o k2 := by
  induction o with
  | nil => simp [setField, lookupField, Ne.symm hne]
  | cons p rest ih =>
    obtain ⟨k1, v1⟩ := p
    by_cases h : k1 = k
    · subst h
      simp [setField, lookupField, Ne.symm hne]
    · by_cases h2 : k1 = k2
      · subst h2
        simp [setField, h, lookupField]
      · simp [setField, h, lookupField, h2, ih]

theorem from_json_shape (f : Frame) (ev : GatewayEvent)
    (h : GatewayEvent.from_json f = some ev) :
    ∃ fields, f = Frame.json (Json.obj fields) ∧
      lookupField fields "op" = some (Json.num ev.op) := by
  cases f with
  | invalid n => simp [GatewayEvent.from_json] at h
  | json v =>
    cases v with
    | null => simp [GatewayEvent.from_json] at h
    | bool b => simp [GatewayEvent.from_json] at h
    | num n => simp [GatewayEvent.from_json] at h
    | str s => simp [GatewayEvent.from_json] at h
    | arr xs => simp [GatewayEvent.from_json] at h
    | obj fields =>
      refine ⟨fields, rfl, ?_⟩
      simp only [GatewayEvent.from_json] at h
      cases hop : lookupField fields "op" with
      | none => rw [hop] at h; simp at h
      | some jv =>
        rw [hop] at h
        cases jv with
        | null => simp at h
        | bool b => simp at h
        | num n =>
          injection h with h
          subst h
          rfl
        | str s => simp at h
        | arr xs => simp at h
        | obj o => simp at h

theorem from_json_t_shape (f : Frame) (ev : GatewayEvent) (name : String)
    (h : GatewayEvent.from_json f = some ev) (ht : ev.t = some name) :
    ∃ fields, f = Frame.json (Json.obj fields) ∧
      lookupField fields "op" = some (Json.num ev.op) ∧
      lookupField fields "t" = some (Json.str name) := by
  obtain ⟨fields, hf, hop⟩ := from_json_shape f ev h
  subst hf
  refine ⟨fields, rfl, hop, ?_⟩
  simp only [GatewayEvent.from_json, hop] at h
  injection h with h
  have ht2 := congrArg GatewayEvent.t h
  dsimp only at ht2
  rw [ht] at ht2
  cases htl : lookupField fields "t" with
  | none => rw [htl] at ht2; simp at ht2
  | some jv =>
    rw [htl] at ht2
    cases jv with
    | null => simp at ht2
    | bool b => simp at ht2
    | num n => simp at ht2
    | str s =>
      dsimp only at ht2
      injection ht2 with h3
      subst h3
      rfl
    | arr xs => simp at ht2
    | obj o => simp at ht2

theorem parse_dispatch_of (f : Frame) (ev : GatewayEvent) (name : String)
    (h : GatewayEvent.from_json f = some ev) (hop : ev.op = 0) (ht : ev.t = some name) :
    parse f = some (ParsedEvent.dispatch name) := by
  obtain ⟨fields, hf, hopl, htl⟩ := from_json_t_shape f ev name h ht
  subst hf
  rw [hop] at hopl
  simp [parse, hopl, htl]

theorem parse_invalidate_shape (f : Frame) (b : Bool)
    (h : parse f = some (ParsedEvent.invalidateSession b)) :
    ∃ fields, f = Frame.json (Json.obj fields) ∧
      lookupField fields "op" = some (Json.num 9) ∧
      lookupField fields "d" = some (Json.bool b) := by
  cases f with
  | invalid n => simp [parse] at h
  | json v =>
    cases v with
    | null => simp [parse] at h
    | bool c => simp [parse] at h
    | num n => simp [parse] at h
    | str s => simp [parse] at h
    | arr xs => simp [parse] at h
    | obj fields =>
      refine ⟨fields, rfl, ?_⟩
      simp only [parse] at h
      cases hop : lookupField fields "op" with
      | none => rw [hop] at h; simp at h
      | some jv =>
        rw [hop] at h
        cases jv with
        | null => simp at h
        | bool c => simp at h
        | num n =>
          dsimp only at h
          by_cases h0 : n = (0 : Int)
          · rw [if_pos h0] at h
            cases htl : lookupField fields "t" with
            | none => rw [htl] at h; simp at h
            | some jt =>
              rw [htl] at h
              cases jt <;> simp at h
          · rw [if_neg h0] at h
            by_cases h9 : n = (9 : Int)
            · rw [if_pos h9] at h
              subst h9
              cases hdl : lookupField fields "d" with
              | none => rw [hdl] at h; simp at h
              | some jd =>
                rw [hdl] at h
                cases jd with
                | null => simp at h
                | bool c =>
                  dsimp only at h
                  injection h with h
                  injection h with h
                  subst h
                  exact ⟨rfl, rfl⟩
                | num m => simp at h
                | str s => simp at h
                | arr xs => simp at h
                | obj o => simp at h
            · rw [if_neg h9] at h
              simp at h
        | str s => simp at h
        | arr xs => simp at h
        | obj o => simp at h

theorem readyFromJson_none_of_invalidate (f : Frame) (b : Bool)
    (h : parse f = some (ParsedEvent.invalidateSession b)) : readyFromJson f = none := by
  obtain ⟨fields, hf, _, hd⟩ := parse_invalidate_shape f b h
  subst hf
  simp [readyFromJson, hd]

theorem parse_not_invalidate_of_readyBody (f : Frame) (d : JsonObject) (b : Bool)
    (h : readyFromJson f = some d) : parse f ≠ some (ParsedEvent.invalidateSession b) := by
  intro hp
  rw [readyFromJson_none_of_invalidate f b hp] at h
  exact Option.noConfusion h

theorem eventName_eq_some (f : Frame) (name : String) :
    eventName f = some name ↔
      ∃ ev, GatewayEvent.from_json f = some ev ∧ ev.t = some name := by
  cases hj : GatewayEvent.from_json f <;> simp [eventName, hj]

theorem from_json_of_op (f : Frame) (fields : JsonObject) (n : Int)
    (hf : f = Frame.json (Json.obj fields))
    (hop : lookupField fields "op" = some (Json.num n)) :
    ∃ ev, GatewayEvent.from_json f = some ev ∧ ev.op = n := by
  subst hf
  simp only [GatewayEvent.from_json, hop]
  exact ⟨_, rfl, rfl⟩

theorem nameStage_none_iff (url : String) (st : LoopState) (f : Frame) (ev : GatewayEvent) :
    nameStage url st f ev = none ↔ ev.t = some "READY" ∧ readyFromJson f = none := by
  cases ht : ev.t with
  | none => simp [nameStage, ht]
  | some name =>
    by_cases h1 : name = "READY"
    · subst h1
      cases hr : readyFromJson f with
      | none => simp [nameStage, ht, hr]
      | some d => simp [nameStage, ht, hr]
    · simp only [nameStage, ht]
      rw [if_neg h1]
      constructor
      · intro hcon
        by_cases h2 : name = "RESUMED"
        · rw [if_pos h2] at hcon
          exact Option.noConfusion hcon
        · rw [if_neg h2] at hcon
          by_cases h3 : ev.op = 0 ∧ st.is_ready
          · rw [if_pos h3] at hcon
            exact Option.noConfusion hcon
          · rw [if_neg h3] at hcon
            exact Option.noConfusion hcon
      · rintro ⟨h3, -⟩
        injection h3 with h3
        exact absurd h3 h1

theorem parseStage_fst_of_not_invalidate (st : LoopState) (f : Frame)
    (h : ∀ b, parse f ≠ some (ParsedEvent.invalidateSession b)) :
    (parseStage st f).1 = st := by
  cases hp : parse f with
  | none => simp [parseStage, hp]
  | some pe =>
    cases pe with
    | dispatch n => simp [parseStage, hp]
    | invalidateSession b => exact absurd hp (h b)
    | other => simp [parseStage, hp]

theorem parseStage_ready_none (st : LoopState) (f : Frame) (h : st.ready = none) :
    ((parseStage st f).1).ready = none := by
  cases hp : parse f with
  | none => simp [parseStage, hp, h]
  | some pe =>
    cases pe with
    | dispatch n => simp [parseStage, hp, h]
    | invalidateSession b => cases b <;> simp [parseStage, hp, h]
    | other => simp [parseStage, hp, h]

theorem nameStage_ready_preserved (url : String) (st : LoopState) (f : Frame)
    (ev : GatewayEvent) (st1 : LoopState) (pub : List (Frame × Option Int))
    (cnt : List String) (h : nameStage url st f ev = some (st1, pub, cnt))
    (hcase : ev.t ≠ some "READY" ∨ readyFromJson f = none) : st1.ready = st.ready := by
  cases ht : ev.t with
  | none =>
    simp only [nameStage, ht, Option.some_inj, Prod.mk.injEq] at h
    rw [← h.1]
  | some name =>
    simp only [nameStage, ht] at h
    by_cases h1 : name = "READY"
    · cases hcase with
      | inl hc => rw [ht] at hc; exact absurd (congrArg some h1) hc
      | inr hc =>
        rw [if_pos h1, hc] at h
        exact Option.noConfusion h
    · rw [if_neg h1] at h
      by_cases h2 : name = "RESUMED"
      · rw [if_pos h2] at h
        simp only [Option.some_inj, Prod.mk.injEq] at h
        rw [← h.1]
      · rw [if_neg h2] at h
        by_cases h3 : ev.op = 0 ∧ st.is_ready
        · rw [if_pos h3] at h
          simp only [Option.some_inj, Prod.mk.injEq] at h
          rw [← h.1]
        · rw [if_neg h3] at h
          simp only [Option.some_inj, Prod.mk.injEq] at h
          rw [← h.1]

theorem processFrame_published (url : String) (st : LoopState) (f : Frame) (out : StepOut)
    (h : processFrame url st f = some out) : out.published = relaySpecAmended st f := by
  cases hj : GatewayEvent.from_json f with
  | none =>
    simp only [processFrame, hj] at h
    injection h with h
    subst h
    simp [relaySpecAmended, hj]
  | some ev =>
    simp only [processFrame, hj] at h
    cases hn : nameStage url st f ev with
    | none => rw [hn] at h; exact Option.noConfusion h
    | some trip =>
      obtain ⟨st1, pub, cnt⟩ := trip
      rw [hn] at h
      dsimp only at h
      injection h with h
      subst h
      simp only [relaySpecAmended, hj]
      cases ht : ev.t with
      | none =>
        simp only [nameStage, ht, Option.some_inj, Prod.mk.injEq] at hn
        exact hn.2.1.symm
      | some name =>
        simp only [nameStage, ht] at hn
        dsimp only
        by_cases h1 : name = "READY"
        · rw [if_pos h1] at hn
          cases hr : readyFromJson f with
          | none =>
            rw [hr] at hn
            exact Option.noConfusion hn
          | some d =>
            rw [hr] at hn
            dsimp only at hn
            simp only [Option.some_inj, Prod.mk.injEq] at hn
            rw [← hn.2.1, if_neg (fun hc => hc.1 h1)]
        · rw [if_neg h1] at hn
          by_cases h2 : name = "RESUMED"
          · rw [if_pos h2] at hn
            simp only [Option.some_inj, Prod.mk.injEq] at hn
            rw [← hn.2.1, if_neg (fun hc => hc.2.1 h2)]
          · rw [if_neg h2] at hn
            by_cases h3 : ev.op = 0 ∧ st.is_ready
            · rw [if_pos h3] at hn
              simp only [Option.some_inj, Prod.mk.injEq] at hn
              rw [← hn.2.1, if_pos ⟨h1, h2, h3.1, h3.2⟩]
            · rw [if_neg h3] at hn
              simp only [Option.some_inj, Prod.mk.injEq] at hn
              rw [← hn.2.1, if_neg (fun hc => h3 ⟨hc.2.2.1, hc.2.2.2⟩)]

theorem processFrame_none_iff (url : String) (st : LoopState) (f : Frame) :
    processFrame url st f = none ↔
      eventName f = some "READY" ∧ readyFromJson f = none := by
  cases hj : GatewayEvent.from_json f with
  | none => simp [processFrame, hj, eventName]
  | some ev =>
    simp only [processFrame, hj, eventName]
    cases hn : nameStage url st f ev with
    | none =>
      rw [nameStage_none_iff] at hn
      simp [hn.1, hn.2]
    | some trip =>
      obtain ⟨st1, pub, cnt⟩ := trip
      dsimp only
      constructor
      · intro hcon
        exact Option.noConfusion hcon
      · rintro ⟨h1, h2⟩
        have hcon : nameStage url st f ev = none :=
          (nameStage_none_iff url st f ev).mpr ⟨h1, h2⟩
        rw [hn] at hcon
        exact Option.noConfusion hcon

theorem processFrame_no_t (url : String) (st : LoopState) (f : Frame) (ev : GatewayEvent)
    (hj : GatewayEvent.from_json f = some ev) (ht : ev.t = none) :
    processFrame url st f =
      some { state := (parseStage st f).1, published := [], counted := [],
             cached := (parseStage st f).2 } := by
  simp [processFrame, hj, nameStage, ht]

theorem processFrame_cached (url : String) (st : LoopState) (f : Frame)
    (ev : GatewayEvent) (name : String) (out : StepOut)
    (hj : GatewayEvent.from_json f = some ev) (hop : ev.op = 0) (ht : ev.t = some name)
    (h : processFrame url st f = some out) : out.cached = true := by
  have hd := parse_dispatch_of f ev name hj hop ht
  simp only [processFrame, hj] at h
  cases hn : nameStage url st f ev with
  | none =>
    rw [hn] at h
    exact Option.noConfusion h
  | some trip =>
    obtain ⟨st1, pub, cnt⟩ := trip
    rw [hn] at h
    dsimp only at h
    injection h with h
    subst h
    simp [parseStage, hd]

theorem processFrame_invalidate (url : String) (st : LoopState) (f : Frame) (b : Bool)
    (out : StepOut) (hp : parse f = some (ParsedEvent.invalidateSession b))
    (h : processFrame url st f = some out) :
    out.state = { is_ready := false, ready := if b then st.ready else none } := by
  have hr := readyFromJson_none_of_invalidate f b hp
  obtain ⟨fields, hf, hopl, -⟩ := parse_invalidate_shape f b hp
  obtain ⟨ev, hj, -⟩ := from_json_of_op f fields 9 hf hopl
  simp only [processFrame, hj] at h
  cases hn : nameStage url st f ev with
  | none =>
    rw [hn] at h
    exact Option.noConfusion h
  | some trip =>
    obtain ⟨st1, pub, cnt⟩ := trip
    have hready : st1.ready = st.ready :=
      nameStage_ready_preserved url st f ev st1 pub cnt hn (Or.inr hr)
    rw [hn] at h
    dsimp only at h
    injection h with h
    subst h
    simp [parseStage, hp, hready]

theorem processFrame_ready_none_preserved (url : String) (st : LoopState) (f : Frame)
    (out : StepOut) (hst : st.ready = none) (hne : eventName f ≠ some "READY")
    (h : processFrame url st f = some out) : out.state.ready = none := by
  cases hj : GatewayEvent.from_json f with
  | none =>
    simp only [processFrame, hj] at h
    injection h with h
    subst h
    exact hst
  | some ev =>
    have hne2 : ev.t ≠ some "READY" := by
      intro hcon
      exact hne (by simp [eventName, hj, hcon])
    simp only [processFrame, hj] at h
    cases hn : nameStage url st f ev with
    | none =>
      rw [hn] at h
      exact Option.noConfusion h
    | some trip =>
      obtain ⟨st1, pub, cnt⟩ := trip
      have hready : st1.ready = st.ready :=
        nameStage_ready_preserved url st f ev st1 pub cnt hn (Or.inl hne2)
      rw [hn] at h
      dsimp only at h
      injection h with h
      subst h
      exact parseStage_ready_none st1 f (hready.trans hst)

theorem processFrame_ready_effect (url : String) (st : LoopState) (f : Frame)
    (ev : GatewayEvent) (d : JsonObject) (hj : GatewayEvent.from_json f = some ev)
    (ht : ev.t = some "READY") (hr : readyFromJson f = some d) :
    ∃ c, processFrame url st f =
      some { state := { is_ready := true,
                        ready := some (setField (clearGuilds d) "resume_gateway_url"
                                        (Json.str url)) },
             published := [], counted := ["READY"], cached := c } := by
  have hn : nameStage url st f ev =
      some ({ is_ready := true,
              ready := some (setField (clearGuilds d) "resume_gateway_url"
                              (Json.str url)) }, [], ["READY"]) := by
    simp [nameStage, ht, hr]
  have hfix : ∀ st2 : LoopState, (parseStage st2 f).1 = st2 := fun st2 =>
    parseStage_fst_of_not_invalidate st2 f
      (fun b => parse_not_invalidate_of_readyBody f d b hr)
  simp only [processFrame, hj, hn]
  rw [hfix]
  exact ⟨_, rfl⟩

theorem runLoop_published (url : String) (st : LoopState) (msgs : List Message) :
    (runLoop url st msgs).1 = runRelaySpec relaySpecAmended url st msgs := by
  induction msgs generalizing st with
  | nil => rfl
  | cons m rest ih =>
    cases m with
    | close b =>
      cases b with
      | true => rfl
      | false => simpa [runLoop, runRelaySpec] using ih st
    | err => simpa [runLoop, runRelaySpec] using ih st
    | text f =>
      cases hp : processFrame url st f with
      | none => simp [runLoop, runRelaySpec, hp]
      | some out =>
        simp [runLoop, runRelaySpec, hp, processFrame_published url st f out hp, ih out.state]

theorem runLoop_skip (url : String) (m : Message)
    (hm : m = Message.err ∨ m = Message.close false) :
    ∀ (st : LoopState) (pre post : List Message),
      runLoop url st (pre ++ m :: post) = runLoop url st (pre ++ post) := by
  intro st pre post
  induction pre generalizing st with
  | nil =>
    cases hm with
    | inl h => subst h; rfl
    | inr h => subst h; rfl
  | cons m2 pre2 ih =>
    cases m2 with
    | close b =>
      cases b with
      | true => rfl
      | false => simpa [runLoop] using ih st
    | err => simpa [runLoop] using ih st
    | text f =>
      cases hp : processFrame url st f with
      | none => simp [runLoop, hp]
      | some out => simp [runLoop, hp, ih out.state]

theorem runLoop_outcomes (url : String) :
    ∀ (st : LoopState) (msgs : List Message),
      (runLoop url st msgs).2 = Outcome.streamEnd ∨
      (runLoop url st msgs).2 = Outcome.shutdownClose ∨
      (runLoop url st msgs).2 = Outcome.panicked := by
  intro st msgs
  induction msgs generalizing st with
  | nil => exact Or.inl rfl
  | cons m rest ih =>
    cases m with
    | close b =>
      cases b with
      | true => exact Or.inr (Or.inl rfl)
      | false => exact ih st
    | err => exact ih st
    | text f =>
      cases hp : processFrame url st f with
      | none => simp [runLoop, hp]
      | some out =>
        have := ih out.state
        simpa [runLoop, hp] using this

/-- C1 counterexample: the claim that no frame content causes a panic is
false at a concrete input.  The frame has event-type name READY and its
body fails full deserialization into the Ready model (its `d` field is
null), so `dispatch.rs` line 95 unwraps a failed parse and panics:
processing returns `none`, terminating the session loop, instead of
discarding the frame. -/
theorem events_no_panic_counterexample :
    processFrame "wss://relay.example" initialState badReadyFrame = none := rfl

/-- C1 (amended): a frame whose envelope fails structural decoding is
discarded and the loop continues with its state unchanged, and processing
a frame panics (terminating the session loop) exactly when the envelope
carries event-type READY while the body fails full deserialization into
the Ready model; every other frame content is processed without panic. -/
theorem events_no_panic_amended (url : String) (st : LoopState) (f : Frame) :
    (GatewayEvent.from_json f = none →
      processFrame url st f =
        some { state := st, published := [], counted := [], cached := false }) ∧
    (processFrame url st f = none ↔
      eventName f = some "READY" ∧ readyFromJson f = none) := by
  constructor
  · intro hj
    simp [processFrame, hj]
  · exact processFrame_none_iff url st f

/-- C1 witness: a structurally undecodable frame is discarded and the loop
continues, at a concrete input. -/
theorem events_no_panic_amended_witness :
    processFrame "wss://relay.example" initialState (Frame.invalid 0) =
      some { state := initialState, published := [], counted := [], cached := false } :=
  (events_no_panic_amended "wss://relay.example" initialState (Frame.invalid 0)).1 rfl

/-- C2 counterexample: the published messages are not exactly the
opcode-0-with-event-type frames received while Ready.  On a trace
consisting of a READY frame followed by an opcode-0 RESUMED frame, the
loop publishes nothing, while the claim (literal reading) predicts the
RESUMED frame is published: it has opcode 0 and an event type and arrives
while the readiness state is Ready. -/
theorem relay_exactly_counterexample :
    ¬ ∀ (url : String) (st : LoopState) (msgs : List Message),
        (runLoop url st msgs).1 = runRelaySpec relaySpecLiteral url st msgs :=
  fun h =>
    absurd (congrArg List.length (h "wss://relay.example" initialState sampleTrace))
      (by decide)

/-- C2 (amended): over every transport stream, the messages published on
the broadcast bus are exactly the raw texts of the dispatch frames with
opcode 0 and an event type other than READY and RESUMED received while
the readiness state is Ready, each paired with its envelope sequence
number, in receive order; and every frame decoding with opcode 0 and an
event type is offered to the entity cache when its processing completes,
whatever the readiness state. -/
theorem relay_exactly_amended (url : String) :
    (∀ (st : LoopState) (msgs : List Message),
      (runLoop url st msgs).1 = runRelaySpec relaySpecAmended url st msgs) ∧
    (∀ (st : LoopState) (f : Frame) (ev : GatewayEvent) (name : String) (out : StepOut),
      GatewayEvent.from_json f = some ev → ev.op = 0 → ev.t = some name →
      processFrame url st f = some out → out.cached = true) :=
  ⟨fun st msgs => runLoop_published url st msgs,
   fun st f ev name out hj hop ht h => processFrame_cached url st f ev name out hj hop ht h⟩

/-- C2 witness: a MESSAGE_CREATE frame received while NotReady is offered
to the entity cache even though it is not relayed. -/
theorem relay_exactly_amended_witness :
    processFrame "wss://relay.example" initialState messageCreateFrame =
      some { state := initialState, published := [], counted := ["MESSAGE_CREATE"],
             cached := true } ∧
    ({ state := initialState, published := [], counted := ["MESSAGE_CREATE"],
       cached := true } : StepOut).cached = true :=
  ⟨rfl,
   (relay_exactly_amended "wss://relay.example").2 initialState messageCreateFrame
     { op := 0, s := some 2, t := some "MESSAGE_CREATE" } "MESSAGE_CREATE" _
     rfl rfl rfl rfl⟩

/-- C3: processing a frame whose event-type name is READY and whose body
is a JSON object with a `guilds` array field sets readiness to Ready and
publishes (overwriting any previous snapshot, whatever the prior state) a
ready snapshot whose `guilds` field is the empty array and whose
`resume_gateway_url` field is the configured externally accessible URL,
regardless of the original upstream values of those fields. -/
theorem ready_snapshot_published (url : String) (st : LoopState) (f : Frame)
    (d : JsonObject) (g : List Json) (hname : eventName f = some "READY")
    (hbody : readyFromJson f = some d)
    (hguilds : lookupField d "guilds" = some (Json.arr g)) :
    ∃ out, processFrame url st f = some out ∧
      out.state.is_ready = true ∧
      ∃ d2, out.state.ready = some d2 ∧
        lookupField d2 "guilds" = some (Json.arr []) ∧
        lookupField d2 "resume_gateway_url" = some (Json.str url) := by
  obtain ⟨ev, hj, ht⟩ := (eventName_eq_some f "READY").mp hname
  obtain ⟨c, hpf⟩ := processFrame_ready_effect url st f ev d hj ht hbody
  refine ⟨_, hpf, rfl, _, rfl, ?_, ?_⟩
  · rw [lookupField_setField_ne _ _ _ _ (by decide)]
    simp [clearGuilds, hguilds, lookupField_setField_self]
  · exact lookupField_setField_self _ _ _

/-- C3 witness: the sample READY frame, processed from the initial state,
publishes a snapshot with empty `guilds` and the relay URL. -/
theorem ready_snapshot_published_witness :
    ∃ out, processFrame "wss://relay.example" initialState readyFrame = some out ∧
      out.state.is_ready = true ∧
      ∃ d2, out.state.ready = some d2 ∧
        lookupField d2 "guilds" = some (Json.arr []) ∧
        lookupField d2 "resume_gateway_url" = some (Json.str "wss://relay.example") :=
  ready_snapshot_published "wss://relay.example" initialState readyFrame
    upstreamReadyBody [Json.obj [("id", Json.num 1)], Json.obj [("id", Json.num 2)]]
    rfl rfl rfl

/-- C4: processing a session-invalidation signal with resumable = false
sets readiness to NotReady and makes the published snapshot absent; and
the snapshot stays absent across the processing of any frame whose
event-type name is not READY, so it remains unset until the next READY is
processed. -/
theorem invalidate_not_resumable (url : String) (st : LoopState) (f : Frame)
    (out : StepOut) :
    (parse f = some (ParsedEvent.invalidateSession false) →
      processFrame url st f = some out →
      out.state.is_ready = false ∧ out.state.ready = none) ∧
    (st.ready = none → eventName f ≠ some "READY" →
      processFrame url st f = some out → out.state.ready = none) := by
  constructor
  · intro hp h
    have heq := processFrame_invalidate url st f false out hp h
    simp [heq]
  · exact fun h1 h2 h3 => processFrame_ready_none_preserved url st f out h1 h2 h3

/-- C4 witness: a concrete non-resumable invalidation frame, processed
while Ready with a published snapshot, clears both. -/
theorem invalidate_not_resumable_witness :
    processFrame "wss://relay.example" { is_ready := true, ready := some [] }
        (invalidateFrame false) =
      some { state := { is_ready := false, ready := none }, published := [],
             counted := [], cached := false } ∧
    ({ state := { is_ready := false, ready := none }, published := [], counted := [],
       cached := false } : StepOut).state.is_ready = false ∧
    ({ state := { is_ready := false, ready := none }, published := [], counted := [],
       cached := false } : StepOut).state.ready = none :=
  ⟨rfl,
   (invalidate_not_resumable "wss://relay.example"
       { is_ready := true, ready := some [] } (invalidateFrame false) _).1 rfl rfl⟩

/-- C5: processing a session-invalidation signal with resumable = true
sets readiness to NotReady while leaving the published snapshot exactly
as it was before the frame. -/
theorem invalidate_resumable (url : String) (st : LoopState) (f : Frame) (out : StepOut)
    (hp : parse f = some (ParsedEvent.invalidateSession true))
    (h : processFrame url st f = some out) :
    out.state.is_ready = false ∧ out.state.ready = st.ready := by
  have heq := processFrame_invalidate url st f true out hp h
  simp [heq]

/-- C5 witness: a concrete resumable invalidation frame, processed while
Ready with a published snapshot, suspends relay but keeps the snapshot. -/
theorem invalidate_resumable_witness :
    processFrame "wss://relay.example" { is_ready := true, ready := some [] }
        (invalidateFrame true) =
      some { state := { is_ready := false, ready := some [] }, published := [],
             counted := [], cached := false } ∧
    ({ state := { is_ready := false, ready := some [] }, published := [], counted := [],
       cached := false } : StepOut).state.is_ready = false ∧
    ({ state := { is_ready := false, ready := some [] }, published := [], counted := [],
       cached := false } : StepOut).state.ready =
      ({ is_ready := true, ready := some [] } : LoopState).ready :=
  ⟨rfl,
   invalidate_resumable "wss://relay.example" { is_ready := true, ready := some [] }
     (invalidateFrame true) _ rfl rfl⟩

/-- C6: a frame whose event-type name is READY or RESUMED is never itself
published on the broadcast bus, in every reachable state (including when
readiness was already Ready); and whenever anything is published for a
frame, that frame decoded with opcode 0, the state was Ready, and its
event-type name is neither READY nor RESUMED. -/
theorem ready_resumed_never_relayed (url : String) (st : LoopState) (f : Frame)
    (out : StepOut) (h : processFrame url st f = some out) :
    ((eventName f = some "READY" ∨ eventName f = some "RESUMED") →
      out.published = []) ∧
    (out.published ≠ [] →
      ∃ ev name, GatewayEvent.from_json f = some ev ∧ ev.t = some name ∧
        name ≠ "READY" ∧ name ≠ "RESUMED" ∧ ev.op = 0 ∧ st.is_ready = true) := by
  have hpub := processFrame_published url st f out h
  constructor
  · intro hname
    rw [hpub]
    cases hname with
    | inl hready =>
      obtain ⟨ev, hj, ht⟩ := (eventName_eq_some f "READY").mp hready
      simp [relaySpecAmended, hj, ht]
    | inr hresumed =>
      obtain ⟨ev, hj, ht⟩ := (eventName_eq_some f "RESUMED").mp hresumed
      simp [relaySpecAmended, hj, ht]
  · intro hne
    rw [hpub] at hne
    cases hj : GatewayEvent.from_json f with
    | none => rw [relaySpecAmended, hj] at hne; exact absurd rfl hne
    | some ev =>
      simp only [relaySpecAmended, hj] at hne
      cases ht : ev.t with
      | none => rw [ht] at hne; exact absurd rfl hne
      | some name =>
        rw [ht] at hne
        dsimp only at hne
        by_cases hcond : name ≠ "READY" ∧ name ≠ "RESUMED" ∧ ev.op = 0 ∧ st.is_ready
        · exact ⟨ev, name, rfl, ht, hcond.1, hcond.2.1, hcond.2.2.1, hcond.2.2.2⟩
        · rw [if_neg hcond] at hne
          exact absurd rfl hne

/-- C6 witness: a RESUMED frame processed while Ready publishes nothing. -/
theorem ready_resumed_never_relayed_witness :
    processFrame "wss://relay.example" { is_ready := true, ready := some [] }
        resumedFrame =
      some { state := { is_ready := true, ready := some [] }, published := [],
             counted := ["RESUMED"], cached := true } ∧
    ({ state := { is_ready := true, ready := some [] }, published := [],
       counted := ["RESUMED"], cached := true } : StepOut).published = [] :=
  ⟨rfl,
   (ready_resumed_never_relayed "wss://relay.example"
       { is_ready := true, ready := some [] } resumedFrame _ rfl).1
     (Or.inr rfl)⟩

/-- C7 counterexample: the claim that every counter value n is set to
n + 1 with strictly increasing, never repeating sequence numbers is false
at the wrap point of the fixed-width `usize` counter.  At the maximal
counter value the unchecked increment wraps: the counter becomes 0 rather
than n + 1, and the sequence number of the next payload is not greater
than that of the previous one. -/
theorem get_ready_payload_wrap_counterexample :
    (Guilds.get_ready_payload [] (USIZE_BOUND - 1)).2 ≠ (USIZE_BOUND - 1) + 1 ∧
    (Guilds.get_ready_payload [] (USIZE_BOUND - 1)).2 = 0 ∧
    ¬ ((Guilds.get_ready_payload [] (USIZE_BOUND - 2)).1.s <
        (Guilds.get_ready_payload []
          (Guilds.get_ready_payload [] (USIZE_BOUND - 2)).2).1.s) := by
  refine ⟨?_, ?_, ?_⟩ <;> decide

/-- C7 (amended): while the `usize` sequence counter does not wrap, a call
to `get_ready_payload` with counter n sets the counter to n + 1 and
returns a payload with s = n + 1; in every case the payload has
op = Dispatch, t = READY, and d equal to the given body with its `guilds`
field set to the empty array and all other fields unchanged;
`get_guild_payloads` returns the empty sequence and never changes the
counter; and the sequence numbers of consecutive synthetic payloads are
strictly increasing as long as no wrap occurs among them. -/
theorem get_ready_payload_spec_amended (ready ready2 : JsonObject) (n : Nat)
    (k : String) :
    (n + 1 < USIZE_BOUND →
      (Guilds.get_ready_payload ready n).2 = n + 1 ∧
      (Guilds.get_ready_payload ready n).1.s = n + 1) ∧
    (Guilds.get_ready_payload ready n).1.op = OpCode.Dispatch ∧
    (Guilds.get_ready_payload ready n).1.t = "READY" ∧
    lookupField (Guilds.get_ready_payload ready n).1.d "guilds" = some (Json.arr []) ∧
    (k ≠ "guilds" →
      lookupField (Guilds.get_ready_payload ready n).1.d k = lookupField ready k) ∧
    Guilds.get_guild_payloads n = ([], n) ∧
    (n + 2 < USIZE_BOUND →
      (Guilds.get_ready_payload ready n).1.s <
        (Guilds.get_ready_payload ready2 (Guilds.get_ready_payload ready n).2).1.s) := by
  refine ⟨?_, rfl, rfl, lookupField_setField_self _ _ _, ?_, rfl, ?_⟩
  · intro h
    exact ⟨Nat.mod_eq_of_lt h, Nat.mod_eq_of_lt h⟩
  · exact fun hk => lookupField_setField_ne ready "guilds" (Json.arr []) k hk
  · intro h
    have h1 : n + 1 < USIZE_BOUND := by omega
    show (n + 1) % USIZE_BOUND < ((n + 1) % USIZE_BOUND + 1) % USIZE_BOUND
    rw [Nat.mod_eq_of_lt h1]
    rw [Nat.mod_eq_of_lt (show n + 1 + 1 < USIZE_BOUND by omega)]
    exact Nat.lt_succ_self (n + 1)

/-- C7 witness: the sample ready body at counter 0, far from the wrap:
the counter advances to 1, the untouched field at the resume URL key is
preserved, and the next sequence number is strictly larger. -/
theorem get_ready_payload_spec_amended_witness :
    0 + 1 < USIZE_BOUND ∧ 0 + 2 < USIZE_BOUND ∧
    ("resume_gateway_url" : String) ≠ "guilds" ∧
    (Guilds.get_ready_payload upstreamReadyBody 0).2 = 0 + 1 ∧
    lookupField (Guilds.get_ready_payload upstreamReadyBody 0).1.d "resume_gateway_url" =
      lookupField upstreamReadyBody "resume_gateway_url" ∧
    (Guilds.get_ready_payload upstreamReadyBody 0).1.s <
      (Guilds.get_ready_payload []
        (Guilds.get_ready_payload upstreamReadyBody 0).2).1.s :=
  ⟨by decide, by decide, by decide,
   ((get_ready_payload_spec_amended upstreamReadyBody [] 0 "resume_gateway_url").1
     (by decide)).1,
   (get_ready_payload_spec_amended upstreamReadyBody [] 0 "resume_gateway_url").2.2.2.2.1
     (by decide),
   (get_ready_payload_spec_amended upstreamReadyBody [] 0 "resume_gateway_url").2.2.2.2.2.2
     (by decide)⟩

/-- C8: the loop returns with stream end on an exhausted stream; it
returns immediately on a close frame observed during shutdown; a read
error or a close frame outside shutdown anywhere in the stream is skipped
without any other effect on the run; and every non-panicking run ends in
one of exactly those two return conditions. -/
theorem loop_exit_characterization (url : String) (st : LoopState)
    (rest pre post msgs : List Message) :
    runLoop url st [] = ([], Outcome.streamEnd) ∧
    runLoop url st (Message.close true :: rest) = ([], Outcome.shutdownClose) ∧
    runLoop url st (pre ++ Message.err :: post) = runLoop url st (pre ++ post) ∧
    runLoop url st (pre ++ Message.close false :: post) = runLoop url st (pre ++ post) ∧
    ((runLoop url st msgs).2 ≠ Outcome.panicked →
      (runLoop url st msgs).2 = Outcome.streamEnd ∨
      (runLoop url st msgs).2 = Outcome.shutdownClose) := by
  refine ⟨rfl, rfl, runLoop_skip url Message.err (Or.inl rfl) st pre post,
    runLoop_skip url (Message.close false) (Or.inr rfl) st pre post, ?_⟩
  intro hne
  rcases runLoop_outcomes url st msgs with h | h | h
  · exact Or.inl h
  · exact Or.inr h
  · exact absurd h hne

/-- C8 witness: a stream consisting of one read error and one close frame
outside shutdown ends with the stream-end return. -/
theorem loop_exit_characterization_witness :
    (runLoop "wss://relay.example" initialState
        [Message.err, Message.close false]).2 ≠ Outcome.panicked ∧
    ((runLoop "wss://relay.example" initialState
        [Message.err, Message.close false]).2 = Outcome.streamEnd ∨
     (runLoop "wss://relay.example" initialState
        [Message.err, Message.close false]).2 = Outcome.shutdownClose) :=
  ⟨by decide,
   (loop_exit_characterization "wss://relay.example" initialState [] [] []
       [Message.err, Message.close false]).2.2.2.2 (by decide)⟩

/-- C9: along any run of the loop, consecutive telemetry sample emissions
are separated by strictly more than `UPDATE_INTERVAL` (500ms) of
monotonic clock time, whatever the iteration rate, and no sample is
emitted until strictly more than 500ms have elapsed since the loop
started (the debounce clock starts at the initial instant). -/
theorem telemetry_debounce_chain (t0 : Nat) (ts : List Nat) :
    List.Chain' (fun a b => UPDATE_INTERVAL < b - a) (t0 :: sampleTimes t0 ts) := by
  induction ts generalizing t0 with
  | nil => simp [sampleTimes]
  | cons t rest ih =>
    by_cases h : UPDATE_INTERVAL < t - t0
    · simp only [sampleTimes, if_pos h]
      rw [List.chain'_cons]
      exact ⟨h, ih t⟩
    · simp only [sampleTimes, if_neg h]
      exact ih t0

/-- C10: a frame whose envelope decodes with no event-type name (absent or
null `t`) is processed without being published on the broadcast bus and
without incrementing the per-event-type counter, in every state. -/
theorem no_event_type_no_relay (url : String) (st : LoopState) (f : Frame)
    (ev : GatewayEvent) (hj : GatewayEvent.from_json f = some ev) (ht : ev.t = none) :
    ∃ out, processFrame url st f = some out ∧ out.published = [] ∧ out.counted = [] :=
  ⟨_, processFrame_no_t url st f ev hj ht, rfl, rfl⟩

/-- C10 witness: an opcode-0 frame with a null `t` field, processed while
Ready, publishes nothing and counts nothing. -/
theorem no_event_type_no_relay_witness :
    ∃ out, processFrame "wss://relay.example" { is_ready := true, ready := some [] }
        noTypeFrame = some out ∧ out.published = [] ∧ out.counted = [] :=
  no_event_type_no_relay "wss://relay.example" { is_ready := true, ready := some [] }
    noTypeFrame { op := 0, s := some 3, t := none } rfl rfl

end GatewayProxy
